import Mathlib

/-!
Shallow embedding of the deepfilter-multimedia repository
(src/deepfilter_multimedia/core.py, src/deepfilter_multimedia/cli.py,
src/vid.py) and proofs about its claims.

Python exceptions are modelled by the inductive `PyErr`; fallible code
returns `Except PyErr _`.  External subprocess invocations are modelled by
an oracle `run : List String → SubprocResult` supplied by the environment,
and the filesystem by a list of existing paths threaded explicitly.
-/

set_option autoImplicit false

namespace DFM

/-- Python exceptions raised by the code under study:
`FileNotFoundError`, `ValueError`, `RuntimeError` (the media-tool error),
`KeyboardInterrupt`, and any other exception. -/
inductive PyErr where
  | fileNotFound (msg : String)
  | valueError (msg : String)
  | runtimeError (msg : String)
  | keyboardInterrupt
  | otherError (msg : String)
  deriving DecidableEq, Repr

/-- Result of `subprocess.run(cmd, capture_output=True, text=True)`. -/
structure SubprocResult where
  returncode : Int
  stdout : String
  stderr : String
  deriving DecidableEq, Repr

/-- The ffmpeg command list built by `extract_audio_from_video`
(core.py lines 25-33). -/
def extract_cmd (video_path output_audio_path : String) : List String :=
  [ "ffmpeg", "-i", video_path,
    "-vn",
    "-acodec", "pcm_s16le",
    "-ar", "48000",
    "-ac", "2",
    "-y",
    output_audio_path ]

/-- The ffmpeg command list built by `reassemble_video_with_audio`
(core.py lines 60-71). -/
def reassemble_cmd (original_video_path enhanced_audio_path output_video_path : String) :
    List String :=
  [ "ffmpeg", "-i", original_video_path, "-i", enhanced_audio_path,
    "-c:v", "copy",
    "-c:a", "aac",
    "-b:a", "320k",
    "-map", "0:v:0",
    "-map", "1:a:0",
    "-shortest",
    "-avoid_negative_ts", "make_zero",
    "-y",
    output_video_path ]

/-- `extract_audio_from_video` (core.py lines 11-38): run ffmpeg, raise
`RuntimeError` carrying stderr on non-zero exit, return `True` otherwise. -/
def extract_audio_from_video (run : List String → SubprocResult)
    (video_path output_audio_path : String) : Except PyErr Bool :=
  let result := run (extract_cmd video_path output_audio_path)
  if result.returncode ≠ 0 then
    .error (.runtimeError ("FFmpeg audio extraction failed: " ++ result.stderr))
  else
    .ok true

/-- `reassemble_video_with_audio` (core.py lines 41-76): run ffmpeg, raise
`RuntimeError` carrying stderr on non-zero exit, return `True` otherwise. -/
def reassemble_video_with_audio (run : List String → SubprocResult)
    (original_video_path enhanced_audio_path output_video_path : String) :
    Except PyErr Bool :=
  let result := run (reassemble_cmd original_video_path enhanced_audio_path output_video_path)
  if result.returncode ≠ 0 then
    .error (.runtimeError ("FFmpeg video reassembly failed: " ++ result.stderr))
  else
    .ok true

end DFM

namespace DFM

/-- C1: the remux command stream-copies video, encodes audio at a fixed
bitrate, truncates to the shorter stream and normalizes timestamps. -/
theorem remux_cmd_spec (a b c : String) :
    (∃ l r, reassemble_cmd a b c = l ++ ["-c:v", "copy"] ++ r)
    ∧ (∃ l r, reassemble_cmd a b c = l ++ ["-c:a", "aac", "-b:a", "320k"] ++ r)
    ∧ (∃ l r, reassemble_cmd a b c = l ++ ["-shortest"] ++ r)
    ∧ (∃ l r, reassemble_cmd a b c = l ++ ["-avoid_negative_ts", "make_zero"] ++ r)
    ∧ (reassemble_cmd a b c).getLast? = some c := by
  refine ⟨⟨["ffmpeg", "-i", a, "-i", b], _, rfl⟩,
    ⟨["ffmpeg", "-i", a, "-i", b, "-c:v", "copy"], _, rfl⟩,
    ⟨["ffmpeg", "-i", a, "-i", b, "-c:v", "copy", "-c:a", "aac", "-b:a", "320k",
      "-map", "0:v:0", "-map", "1:a:0"], _, rfl⟩,
    ⟨["ffmpeg", "-i", a, "-i", b, "-c:v", "copy", "-c:a", "aac", "-b:a", "320k",
      "-map", "0:v:0", "-map", "1:a:0", "-shortest"], _, rfl⟩, rfl⟩

/-- C9: each adapter raises a `RuntimeError` carrying the subprocess's
stderr iff the subprocess exits non-zero, and returns `True` on zero exit. -/
theorem mediatool_error_iff (run : List String → SubprocResult) (v o w : String) :
    (extract_audio_from_video run v o = .ok true ↔
      (run (extract_cmd v o)).returncode = 0)
    ∧ ((run (extract_cmd v o)).returncode ≠ 0 →
      extract_audio_from_video run v o =
        .error (.runtimeError ("FFmpeg audio extraction failed: " ++
          (run (extract_cmd v o)).stderr)))
    ∧ (reassemble_video_with_audio run v o w = .ok true ↔
      (run (reassemble_cmd v o w)).returncode = 0)
    ∧ ((run (reassemble_cmd v o w)).returncode ≠ 0 →
      reassemble_video_with_audio run v o w =
        .error (.runtimeError ("FFmpeg video reassembly failed: " ++
          (run (reassemble_cmd v o w)).stderr))) := by
  unfold extract_audio_from_video reassemble_video_with_audio
  constructor
  · by_cases h : (run (extract_cmd v o)).returncode = 0 <;> simp [h]
  constructor
  · intro h; simp [h]
  constructor
  · by_cases h : (run (reassemble_cmd v o w)).returncode = 0 <;> simp [h]
  · intro h; simp [h]

/-- A subprocess oracle that always fails with diagnostic text "boom". -/
def runBoom : List String → SubprocResult := fun _ => ⟨1, "", "boom"⟩

theorem mediatool_error_iff_witness :
    extract_audio_from_video runBoom "v.mp4" "a.wav" =
      .error (.runtimeError "FFmpeg audio extraction failed: boom") :=
  (mediatool_error_iff runBoom "v.mp4" "a.wav" "o.mp4").2.1 (by decide)

/-! ### The video pipeline (`process_video_file`, core.py lines 120-173)

The filesystem is a list of existing paths.  `tempfile.TemporaryDirectory`
is modelled by an environment-chosen directory name whose contents are
removed when the `with` block exits, normally or by exception. -/

/-- `os.path.join(dir, name)` for a directory path without trailing slash. -/
def ospath_join (dir name : String) : String := dir ++ "/" ++ name

/-- Whether path `p` lies strictly under directory `dir`. -/
def underDir (dir p : String) : Bool :=
  (dir ++ "/").toList.isPrefixOf p.toList

/-- Removing a temporary directory removes every path under it
(the teardown of `tempfile.TemporaryDirectory`). -/
def cleanupTemp (dir : String) (fs : List String) : List String :=
  fs.filter (fun p => !(underDir dir p))

/-- Environment for one `process_video_file` call: the subprocess oracle,
the name the tempfile module chose for the temporary directory, and the
outcome of the DeepFilterNet load/enhance calls (`none` means success). -/
structure VideoEnv where
  run : List String → SubprocResult
  tempDir : String
  dfError : Option PyErr

/-- The body of the `with tempfile.TemporaryDirectory()` block of
`process_video_file`: extract audio, enhance, save, remux.  Returns the
filesystem after the block, pairing any raised exception with the
filesystem at the point it was raised. -/
def videoBody (env : VideoEnv) (input_path output_path : String) (fs : List String) :
    Except (PyErr × List String) (List String) :=
  let temp_audio_path := ospath_join env.tempDir "extracted_audio.wav"
  let temp_enhanced_path := ospath_join env.tempDir "enhanced_audio.wav"
  match extract_audio_from_video env.run input_path temp_audio_path with
  | .error e => .error (e, fs)
  | .ok _ =>
    let fs1 := temp_audio_path :: fs
    match env.dfError with
    | some e => .error (e, fs1)
    | none =>
      let fs2 := temp_enhanced_path :: fs1
      match reassemble_video_with_audio env.run input_path temp_enhanced_path output_path with
      | .error e => .error (e, fs2)
      | .ok _ => .ok (output_path :: fs2)

/-- `process_video_file` (core.py lines 120-173): run the body inside the
temporary directory; whether the body returns or raises, the temporary
directory's contents are removed before the call finishes. -/
def process_video_file (env : VideoEnv) (input_path output_path : String)
    (fs : List String) : Except PyErr Unit × List String :=
  match videoBody env input_path output_path fs with
  | .ok fs' => (.ok (), cleanupTemp env.tempDir fs')
  | .error (e, fs') => (.error e, cleanupTemp env.tempDir fs')

theorem underDir_join (dir name : String) :
    underDir dir (ospath_join dir name) = true := by
  have h : ospath_join dir name = (dir ++ "/") ++ name := by
    simp [ospath_join, String.append_assoc]
  rw [underDir, h]
  rw [ List.isPrefixOf_iff_prefix]
  show (dir ++ "/").data <+: ((dir ++ "/") ++ name).data
  rw [String.data_append]
  exact List.prefix_append _ _

theorem not_mem_cleanupTemp_of_underDir (dir p : String) (fs : List String)
    (h : underDir dir p = true) : p ∉ cleanupTemp dir fs := by
  intro hmem
  rcases List.mem_filter.mp hmem with ⟨-, hkeep⟩
  simp [h] at hkeep

/-- C2: after `process_video_file` returns — whether with `ok` or with an
exception — neither temporary file (the extracted audio nor the enhanced
audio) exists on disk. -/
theorem video_temp_files_removed (env : VideoEnv) (input_path output_path : String)
    (fs : List String) :
    ospath_join env.tempDir "extracted_audio.wav" ∉
      (process_video_file env input_path output_path fs).2
    ∧ ospath_join env.tempDir "enhanced_audio.wav" ∉
      (process_video_file env input_path output_path fs).2 := by
  have h1 := underDir_join env.tempDir "extracted_audio.wav"
  have h2 := underDir_join env.tempDir "enhanced_audio.wav"
  unfold process_video_file
  rcases hb : videoBody env input_path output_path fs with fs' | ⟨e, fs'⟩ <;>
    exact ⟨not_mem_cleanupTemp_of_underDir _ _ _ h1,
      not_mem_cleanupTemp_of_underDir _ _ _ h2⟩

/-! ### The file router (`process_file`, core.py lines 176-227)

`pathlib.PurePath.name`, `.suffix` and `.stem` are embedded from their
CPython implementations: `name` is the part after the last `/`; `suffix`
is `name[i:]` where `i = name.rfind(".")`, provided `0 < i < len(name)-1`,
else empty; `stem` is the matching remainder. -/

/-- `pathlib.Path(p).name`: the final path component. -/
def pyName (p : String) : String :=
  ((p.toList.reverse.takeWhile (fun c => c ≠ '/')).reverse).asString

/-- Index of the last `.` in a character list (`str.rfind(".")`). -/
def lastDotIdx (cs : List Char) : Option Nat :=
  ((cs.enum.filter (fun x => x.2 = '.')).map (fun x => x.1)).getLast?

/-- `pathlib.Path(p).suffix`. -/
def pySuffix (p : String) : String :=
  let cs := (pyName p).toList
  match lastDotIdx cs with
  | some i => if 0 < i ∧ i < cs.length - 1 then (cs.drop i).asString else ""
  | none => ""

/-- `pathlib.Path(p).stem`. -/
def pyStem (p : String) : String :=
  let cs := (pyName p).toList
  match lastDotIdx cs with
  | some i => if 0 < i ∧ i < cs.length - 1 then (cs.take i).asString else (pyName p)
  | none => pyName p

/-- `str.lower()` restricted to ASCII-style per-character lowering. -/
def strToLower (s : String) : String := (s.toList.map Char.toLower).asString

/-- `pathlib.Path(p).parent` rendered as a string. -/
def pyParent (p : String) : String :=
  let cs := p.toList
  let n := (pyName p).length
  if n = cs.length then "." else (cs.take (cs.length - n - 1)).asString

/-- core.py line 211. -/
def video_extensions : List String :=
  [".mp4", ".mkv", ".avi", ".mov", ".webm", ".flv", ".wmv", ".m4v"]

/-- core.py line 212. -/
def audio_extensions : List String :=
  [".wav", ".mp3", ".flac", ".ogg", ".m4a", ".aac", ".wma"]

/-- The default output path derived at core.py lines 203-205:
`str(Path("output") / f"{input_path.stem}_enhanced{input_path.suffix}")`. -/
def default_output_path (input_path : String) : String :=
  "output/" ++ pyStem input_path ++ "_enhanced" ++ pySuffix input_path

/-- Filesystem side effects of `process_file` other than reading the input:
directory creation and dispatch into one of the two pipelines (the only
places an output file can be created). -/
inductive FEffect where
  | mkdir (p : String)
  | runVideoPipeline (input output : String)
  | runAudioPipeline (input output : String)
  deriving DecidableEq, Repr

/-- Environment for `process_file`: which paths exist, and the outcome of
each pipeline if dispatched to. -/
structure FileEnv where
  pathExists : String → Bool
  videoResult : Except PyErr Unit
  audioResult : Except PyErr Unit

/-- The `ValueError` message of core.py lines 221-225. -/
def unsupported_msg (file_ext : String) : String :=
  "Unsupported file type: " ++ file_ext ++
    "\nSupported video: " ++ String.intercalate ", " (video_extensions.mergeSort (fun a b => a ≤ b)) ++
    "\nSupported audio: " ++ String.intercalate ", " (audio_extensions.mergeSort (fun a b => a ≤ b))

/-- `process_file` (core.py lines 176-227): raise `FileNotFoundError` if the
input is missing, derive the output path (creating its directory), classify
by lowercased extension, dispatch, raise `ValueError` on unknown extension.
Returns the result paired with the trace of side effects. -/
def process_file (env : FileEnv) (input_path : String) (output_path : Option String) :
    Except PyErr String × List FEffect :=
  if env.pathExists input_path = false then
    (.error (.fileNotFound ("Input file not found: " ++ input_path)), [])
  else
    let out : String × List FEffect :=
      match output_path with
      | none => (default_output_path input_path, [FEffect.mkdir "output"])
      | some o => (o, [FEffect.mkdir (pyParent o)])
    let file_ext := strToLower (pySuffix input_path)
    if file_ext ∈ video_extensions then
      match env.videoResult with
      | .ok _ => (.ok out.1, out.2 ++ [FEffect.runVideoPipeline input_path out.1])
      | .error e => (.error e, out.2 ++ [FEffect.runVideoPipeline input_path out.1])
    else if file_ext ∈ audio_extensions then
      match env.audioResult with
      | .ok _ => (.ok out.1, out.2 ++ [FEffect.runAudioPipeline input_path out.1])
      | .error e => (.error e, out.2 ++ [FEffect.runAudioPipeline input_path out.1])
    else
      (.error (.valueError (unsupported_msg file_ext)), out.2)

/-- Whether an effect trace contains a dispatch into either pipeline —
the only effects that can create an output file. -/
def runsPipeline (effs : List FEffect) : Bool :=
  effs.any (fun e =>
    match e with
    | .runVideoPipeline _ _ => true
    | .runAudioPipeline _ _ => true
    | .mkdir _ => false)

/-- An environment in which every path exists and both pipelines succeed. -/
def envAllOk : FileEnv := ⟨fun _ => true, .ok (), .ok ()⟩

/-- An environment in which no path exists. -/
def envNothing : FileEnv := ⟨fun _ => false, .ok (), .ok ()⟩

/-- C3: on a missing input, `process_file` raises `FileNotFoundError`
with an empty side-effect trace: no directory is created, no pipeline is
dispatched, hence no subprocess is started and no model is loaded. -/
theorem notfound_before_tools (env : FileEnv) (input_path : String)
    (output_path : Option String) (h : env.pathExists input_path = false) :
    process_file env input_path output_path =
      (.error (.fileNotFound ("Input file not found: " ++ input_path)), []) := by
  simp [process_file, h]

theorem notfound_before_tools_witness :
    process_file envNothing "missing.wav" none =
      (.error (.fileNotFound "Input file not found: missing.wav"), []) :=
  notfound_before_tools envNothing "missing.wav" none (by decide)

/-- C4: on an existing input whose lowercased extension is in neither
recognized set, `process_file` raises the unsupported-type `ValueError`
and its trace dispatches into no pipeline, so no output file is created. -/
theorem unsupported_type_no_output (env : FileEnv) (input_path : String)
    (output_path : Option String) (hex : env.pathExists input_path = true)
    (hv : strToLower (pySuffix input_path) ∉ video_extensions)
    (ha : strToLower (pySuffix input_path) ∉ audio_extensions) :
    (process_file env input_path output_path).1 =
      .error (.valueError (unsupported_msg (strToLower (pySuffix input_path))))
    ∧ runsPipeline (process_file env input_path output_path).2 = false := by
  cases output_path <;> simp [process_file, hex, hv, ha, runsPipeline]

theorem unsupported_type_no_output_witness :
    (process_file envAllOk "notes.txt" none).1 =
      .error (.valueError (unsupported_msg ".txt"))
    ∧ runsPipeline (process_file envAllOk "notes.txt" none).2 = false :=
  unsupported_type_no_output envAllOk "notes.txt" none (by decide) (by decide) (by decide)

/-- C8: when no explicit output path is given, every value `process_file`
returns and every pipeline dispatch it performs uses the derived default
output path `output/<stem>_enhanced<ext>`; in particular the default for
`sample.wav` is `output/sample_enhanced.wav`. -/
theorem default_output_derived (env : FileEnv) (input_path : String) :
    (∀ s, (process_file env input_path none).1 = .ok s → s = default_output_path input_path)
    ∧ (∀ i o, FEffect.runVideoPipeline i o ∈ (process_file env input_path none).2 →
        o = default_output_path input_path)
    ∧ (∀ i o, FEffect.runAudioPipeline i o ∈ (process_file env input_path none).2 →
        o = default_output_path input_path)
    ∧ default_output_path "sample.wav" = "output/sample_enhanced.wav" := by
  refine ⟨?_, ?_, ?_, by decide⟩ <;>
  · intros
    by_cases hex : env.pathExists input_path = false <;>
      by_cases hv : strToLower (pySuffix input_path) ∈ video_extensions <;>
        by_cases ha : strToLower (pySuffix input_path) ∈ audio_extensions <;>
          rcases hvr : env.videoResult with _ | _ <;>
            rcases har : env.audioResult with _ | _ <;>
              simp_all [process_file]

theorem default_output_derived_witness :
    "output/sample_enhanced.wav" = default_output_path "sample.wav" :=
  (default_output_derived envAllOk "sample.wav").1 "output/sample_enhanced.wav" rfl

/-! ### The CLI shell (`cli.py`)

`main` is embedded with `process_file` abstracted into an oracle
`processResult` (its outcome — returned path or raised exception — does
not depend on verbosity, which only gates printing).  Observable events:
existence checks (the only filesystem reads of `validate_args`), per-file
processing, progress prints, and the traceback print of the generic
exception handler. -/

/-- Parsed arguments (`create_parser`, cli.py lines 12-53). -/
structure Args where
  input : List String
  output : Option String
  verbose : Bool
  quiet : Bool

/-- The world the CLI runs against. -/
structure CliWorld where
  pathExists : String → Bool
  processResult : String → Option String → Except PyErr String

/-- Observable events of a `main` run. -/
inductive TEvent where
  | checkExists (p : String)
  | procFile (p : String) (o : Option String)
  | printed (s : String)
  | tracebackPrinted
  deriving DecidableEq, Repr

/-- cli.py line 91: `verbose = not args.quiet if args.quiet else True`. -/
def verboseOf (args : Args) : Bool :=
  if args.quiet then !args.quiet else true

/-- The `ValueError` message of cli.py lines 67-70. -/
def multi_output_msg : String :=
  "Cannot specify --output when processing multiple files. " ++
    "Files will be saved to 'output/' directory."

/-- The existence loop of `validate_args` (cli.py lines 72-74): check each
input in order, raising `FileNotFoundError` at the first missing one. -/
def existsLoop (w : CliWorld) : List String → Except PyErr Unit × List TEvent
  | [] => (.ok (), [])
  | p :: rest =>
    if w.pathExists p = false then
      (.error (.fileNotFound ("Input file not found: " ++ p)), [.checkExists p])
    else
      let r := existsLoop w rest
      (r.1, .checkExists p :: r.2)

/-- `validate_args` (cli.py lines 56-74). -/
def validate_args (w : CliWorld) (args : Args) : Except PyErr Unit × List TEvent :=
  if 1 < args.input.length ∧ args.output ≠ none then
    (.error (.valueError multi_output_msg), [])
  else
    existsLoop w args.input

/-- The batch loop of `main` (cli.py lines 98-106): process each input in
order, stopping at the first exception. -/
def runBatch (w : CliWorld) (outOpt : Option String) (total : Nat) (verbose : Bool) :
    List String → Nat → Except PyErr Unit × List TEvent
  | [], _ => (.ok (), [])
  | f :: rest, i =>
    let hdr : List TEvent :=
      if 1 < total ∧ verbose then
        [.printed ("[" ++ toString (i + 1) ++ "/" ++ toString total ++ "] Processing " ++ f)]
      else []
    match w.processResult f outOpt with
    | .error e => (.error e, hdr ++ [.procFile f outOpt])
    | .ok res =>
      let saved : List TEvent := if verbose then [.printed ("Saved to: " ++ res)] else []
      let r := runBatch w outOpt total verbose rest (i + 1)
      (r.1, hdr ++ [.procFile f outOpt] ++ saved ++ r.2)

/-- The `try` block of `main` (cli.py lines 93-111). -/
def tryBody (w : CliWorld) (args : Args) : Except PyErr Unit × List TEvent :=
  let verbose := verboseOf args
  match validate_args w args with
  | (.error e, evs) => (.error e, evs)
  | (.ok _, evs) =>
    let outOpt := if args.input.length = 1 then args.output else none
    match runBatch w outOpt args.input.length verbose args.input 0 with
    | (.error e, evs2) => (.error e, evs ++ evs2)
    | (.ok _, evs2) =>
      let fin : List TEvent :=
        if verbose ∧ 1 < args.input.length then
          [.printed ("Successfully processed " ++ toString args.input.length ++ " file(s)")]
        else []
      (.ok (), evs ++ evs2 ++ fin)

/-- The exception handlers of `main` (cli.py lines 113-128) mapped to exit
codes: `FileNotFoundError` and `ValueError` give 1, `KeyboardInterrupt`
gives 130, any other exception gives 1. -/
def exitCodeOf : PyErr → Int
  | .fileNotFound _ => 1
  | .valueError _ => 1
  | .keyboardInterrupt => 130
  | .runtimeError _ => 1
  | .otherError _ => 1

/-- Whether an exception reaches the generic `except Exception` handler
(which prints a traceback when verbose). -/
def isGenericExc : PyErr → Bool
  | .runtimeError _ => true
  | .otherError _ => true
  | _ => false

/-- `main` (cli.py lines 77-128): exit code and observable events. -/
def main (w : CliWorld) (args : Args) : Int × List TEvent :=
  let verbose := verboseOf args
  match tryBody w args with
  | (.ok _, evs) => (0, evs)
  | (.error e, evs) =>
    (exitCodeOf e, evs ++ (if isGenericExc e ∧ verbose then [.tracebackPrinted] else []))

theorem existsLoop_ok_iff (w : CliWorld) (files : List String) :
    (existsLoop w files).1 = .ok () ↔ ∀ p ∈ files, w.pathExists p = true := by
  induction files with
  | nil => simp [existsLoop]
  | cons p rest ih =>
    cases h : w.pathExists p with
    | false => simp [existsLoop, h]
    | true => simp [existsLoop, h, ih]

theorem runBatch_ok_iff (w : CliWorld) (outOpt : Option String) (total : Nat)
    (verbose : Bool) (files : List String) (i : Nat) :
    (runBatch w outOpt total verbose files i).1 = .ok () ↔
      ∀ p ∈ files, ∃ s, w.processResult p outOpt = .ok s := by
  induction files generalizing i with
  | nil => simp [runBatch]
  | cons f rest ih =>
    cases h : w.processResult f outOpt with
    | error e => simp [runBatch, h]
    | ok s => simp [runBatch, h, ih]

theorem tryBody_ok_iff (w : CliWorld) (args : Args) :
    (tryBody w args).1 = .ok () ↔
      (¬(1 < args.input.length ∧ args.output ≠ none)
        ∧ (∀ p ∈ args.input, w.pathExists p = true)
        ∧ ∀ p ∈ args.input, ∃ s,
            w.processResult p (if args.input.length = 1 then args.output else none) =
              .ok s) := by
  by_cases hc : 1 < args.input.length ∧ args.output ≠ none
  · simp only [tryBody, validate_args, if_pos hc]
    simp [hc]
  · rcases hel : existsLoop w args.input with ⟨r1, evs1⟩
    cases r1 with
    | error e =>
      have hne : ¬(∀ p ∈ args.input, w.pathExists p = true) := by
        rw [← existsLoop_ok_iff, hel]; simp
      simp [tryBody, validate_args, if_neg hc, hel, hc, hne]
    | ok u =>
      have hall : ∀ p ∈ args.input, w.pathExists p = true := by
        rw [← existsLoop_ok_iff, hel]
      rcases hrb : runBatch w (if args.input.length = 1 then args.output else none)
          args.input.length (verboseOf args) args.input 0 with ⟨r2, evs2⟩
      cases r2 with
      | error e =>
        have hne : ¬(∀ p ∈ args.input, ∃ s,
            w.processResult p (if args.input.length = 1 then args.output else none) =
              .ok s) := by
          rw [← runBatch_ok_iff w _ args.input.length (verboseOf args) args.input 0, hrb]
          simp
        simp [tryBody, validate_args, if_neg hc, hel, hrb, hc, hall, hne]
      | ok v =>
        have hall2 : ∀ p ∈ args.input, ∃ s,
            w.processResult p (if args.input.length = 1 then args.output else none) =
              .ok s := by
          rw [← runBatch_ok_iff w _ args.input.length (verboseOf args) args.input 0, hrb]
        simp [tryBody, validate_args, if_neg hc, hel, hrb, hc, hall, hall2]
        exact ⟨hall, hall2⟩

theorem exitCodeOf_ne_zero (e : PyErr) : exitCodeOf e ≠ 0 := by
  cases e <;> simp [exitCodeOf]

theorem exitCodeOf_eq_130_iff (e : PyErr) : exitCodeOf e = 130 ↔ e = .keyboardInterrupt := by
  cases e <;> simp [exitCodeOf]

theorem exitCodeOf_eq_one (e : PyErr) (h : e ≠ .keyboardInterrupt) : exitCodeOf e = 1 := by
  cases e <;> simp_all [exitCodeOf]

/-- C5: `main` exits 0 exactly when validation passes, every input exists
and every input is processed successfully; it exits 130 exactly when a
`KeyboardInterrupt` is raised; every other exception gives exit 1. -/
theorem cli_exit_codes (w : CliWorld) (args : Args) :
    ((main w args).1 = 0 ↔ (tryBody w args).1 = .ok ())
    ∧ ((main w args).1 = 130 ↔ (tryBody w args).1 = .error .keyboardInterrupt)
    ∧ (∀ e, (tryBody w args).1 = .error e → e ≠ .keyboardInterrupt →
        (main w args).1 = 1)
    ∧ ((tryBody w args).1 = .ok () ↔
        (¬(1 < args.input.length ∧ args.output ≠ none)
          ∧ (∀ p ∈ args.input, w.pathExists p = true)
          ∧ ∀ p ∈ args.input, ∃ s,
              w.processResult p (if args.input.length = 1 then args.output else none) =
                .ok s)) := by
  rcases htb : tryBody w args with ⟨r, evs⟩
  cases r with
  | ok u =>
    cases u
    refine ⟨?_, ?_, ?_, ?_⟩
    · simp [main, htb]
    · simp [main, htb]
    · intro e he; simp_all
    · rw [← tryBody_ok_iff w args, htb]
  | error e =>
    refine ⟨?_, ?_, ?_, ?_⟩
    · simp [main, htb, exitCodeOf_ne_zero e]
    · simp [main, htb, exitCodeOf_eq_130_iff e]
    · intro e2 he2 hne
      have he3 : (Except.error e : Except PyErr Unit) = Except.error e2 := he2
      injection he3 with h1
      subst h1
      simp [main, htb, exitCodeOf_eq_one e hne]
    · rw [← tryBody_ok_iff w args, htb]

/-- A world in which every path exists and processing each file returns
its own path as output. -/
def wAll : CliWorld := ⟨fun _ => true, fun p _ => .ok p⟩

/-- A world in which every path exists but processing raises the
media-tool `RuntimeError`. -/
def wFail : CliWorld := ⟨fun _ => true, fun _ _ => .error (.runtimeError "ffmpeg failed")⟩

theorem cli_exit_codes_witness :
    (main wFail ⟨["a.wav"], none, false, false⟩).1 = 1 :=
  (cli_exit_codes wFail ⟨["a.wav"], none, false, false⟩).2.2.1
    (.runtimeError "ffmpeg failed") rfl (by decide)

/-- C6: with more than one input and an explicit output path, `main`
raises the `ValueError` of `validate_args` before any existence check or
file processing (the event trace is empty) and exits 1. -/
theorem multi_output_rejected (w : CliWorld) (args : Args) (o : String)
    (h1 : 1 < args.input.length) (h2 : args.output = some o) :
    (tryBody w args).1 = .error (.valueError multi_output_msg)
    ∧ (main w args).1 = 1 ∧ (main w args).2 = [] := by
  have hc : 1 < args.input.length ∧ args.output ≠ none := ⟨h1, by simp [h2]⟩
  refine ⟨by simp [tryBody, validate_args, if_pos hc], ?_, ?_⟩ <;>
    simp [main, tryBody, validate_args, if_pos hc, exitCodeOf, isGenericExc]

theorem multi_output_rejected_witness :
    (tryBody wAll ⟨["a.wav", "b.wav"], some "out.wav", false, false⟩).1 =
      .error (.valueError multi_output_msg)
    ∧ (main wAll ⟨["a.wav", "b.wav"], some "out.wav", false, false⟩).1 = 1
    ∧ (main wAll ⟨["a.wav", "b.wav"], some "out.wav", false, false⟩).2 = [] :=
  multi_output_rejected wAll ⟨["a.wav", "b.wav"], some "out.wav", false, false⟩
    "out.wav" (by decide) rfl

/-- C7 counterexample: two existing inputs and no `-o` are accepted — the
run exits 0 (no `InvalidArgument` is raised) and the filesystem is
touched (an existence check occurs). -/
theorem two_inputs_no_output_accepted :
    (main wAll ⟨["a.wav", "b.wav"], none, false, false⟩).1 = 0
    ∧ TEvent.checkExists "a.wav" ∈
        (main wAll ⟨["a.wav", "b.wav"], none, false, false⟩).2 := by
  decide

/-- C7 amended: with exactly two inputs and an explicit `-o`, `main`
raises the `ValueError` of `validate_args` before touching the filesystem
(the event trace is empty) and exits 1. -/
theorem two_inputs_with_output_rejected (w : CliWorld) (args : Args) (o : String)
    (h1 : args.input.length = 2) (h2 : args.output = some o) :
    (tryBody w args).1 = .error (.valueError multi_output_msg)
    ∧ (main w args).1 = 1 ∧ (main w args).2 = [] := by
  have hc : 1 < args.input.length ∧ args.output ≠ none := by
    constructor
    · rw [h1]; decide
    · simp [h2]
  refine ⟨by simp [tryBody, validate_args, if_pos hc], ?_, ?_⟩ <;>
    simp [main, tryBody, validate_args, if_pos hc, exitCodeOf, isGenericExc]

theorem two_inputs_with_output_rejected_witness :
    (tryBody wAll ⟨["a.wav", "b.wav"], some "o.wav", false, false⟩).1 =
      .error (.valueError multi_output_msg)
    ∧ (main wAll ⟨["a.wav", "b.wav"], some "o.wav", false, false⟩).1 = 1
    ∧ (main wAll ⟨["a.wav", "b.wav"], some "o.wav", false, false⟩).2 = [] :=
  two_inputs_with_output_rejected wAll ⟨["a.wav", "b.wav"], some "o.wav", false, false⟩
    "o.wav" rfl rfl

/-- C10: flipping the `-v` flag changes nothing about a run of `main`
(exit code and all observable events are identical), and verbosity is
enabled exactly when `-q` is absent. -/
theorem verbose_flag_no_effect (w : CliWorld) (args : Args) (b : Bool) :
    main w { args with verbose := b } = main w args
    ∧ verboseOf args = !args.quiet := by
  cases args with
  | mk i o v q => exact ⟨rfl, by cases q <;> rfl⟩

end DFM
